import Mathlib

/-!
Shallow embedding of the hierarchical-partition-key sample application.

The repository has two executables: a query program (the unnamed source
file) exercising four read patterns against an Azure Cosmos container with
a three-level hierarchical partition key, and a loader (load/main.go) that
generates synthetic UserSession records and upserts them under their full
three-segment key.  The Azure Cosmos SDK calls (marshal, upsert, pager
pages, create database / container) are external collaborators; their
outcomes enter the embedding as explicit parameters, while every piece of
control flow, string construction and key construction below is translated
from the Go source.
-/

namespace HierPartKeys

/-- A hierarchical partition key: the ordered list of string segments held
by an azcosmos PartitionKey value. -/
abbrev PartitionKey := List String

/-- azcosmos NewPartitionKeyString: a key holding one segment. -/
def newPartitionKeyString (s : String) : PartitionKey := [s]

/-- azcosmos PartitionKey AppendString: extends the key by one segment. -/
def PartitionKey.appendString (pk : PartitionKey) (s : String) : PartitionKey :=
  pk ++ [s]

/-- azcosmos NewPartitionKey: the empty partition key, used by the query
program when the full key is not known. -/
def newPartitionKey : PartitionKey := []

/-- QueryResult (query program): the decoded shape of one returned item. -/
structure QueryResult where
  id : String
  tenantId : String
  userId : String
  sessionId : String
  activity : String
  timestamp : String
  deriving Repr, DecidableEq

/-- UserSession (load/main.go): the record written by the loader.  The
timestamp is modelled as minutes since an epoch (an integer), with a
calendar day counted as 1440 minutes. -/
structure UserSession where
  id : String
  tenantId : String
  userId : String
  sessionId : String
  activity : String
  timestamp : Int
  deriving Repr, DecidableEq

/-- The store-side shape of one filtered query issued through
NewQueryItemsPager: the partition-key scope it is given, the SQL text, and
the named query parameters. -/
structure StoreQuery where
  keyScope : PartitionKey
  queryText : String
  queryParameters : List (String × String)
  deriving Repr, DecidableEq

/-- queryWithFullPartitionKey (query program): query text over all three
fields, key scope built by chaining the three segments. -/
def queryWithFullPartitionKey (tenantID userID sessionID : String) : StoreQuery :=
  { keyScope :=
      ((newPartitionKeyString tenantID).appendString userID).appendString sessionID
  , queryText :=
      "SELECT * FROM c WHERE c.tenantId = @tenantId AND c.userId = @userId AND c.sessionId = @sessionId"
  , queryParameters :=
      [("@tenantId", tenantID), ("@userId", userID), ("@sessionId", sessionID)] }

/-- queryWithTenantAndUserID (query program): the two known segments go
into the WHERE clause as parameters, while the pager is given the empty
partition key (the source comment reads: since we do not have the full
partition key, we use an empty partition key). -/
def queryWithTenantAndUserID (tenantID userID : String) : StoreQuery :=
  { keyScope := newPartitionKey
  , queryText :=
      "SELECT * FROM c WHERE c.tenantId = @tenantId AND c.userId = @userId"
  , queryParameters := [("@tenantId", tenantID), ("@userId", userID)] }

/-- queryWithSinglePKParameter (query program): the field name is checked
against the three key fields first; any other name aborts (log.Fatalf,
modelled as the error branch) before a pager is ever built, and an allowed
name yields the store query that is then issued. -/
def queryWithSinglePKParameter (paramType paramValue : String) :
    Except String StoreQuery :=
  if paramType != "tenantId" && paramType != "userId" && paramType != "sessionId" then
    Except.error ("Invalid parameter type: " ++ paramType)
  else
    Except.ok
      { keyScope := newPartitionKey
      , queryText := "SELECT * FROM c WHERE c." ++ paramType ++ " = @param"
      , queryParameters := [("@param", paramValue)] }

/-- The per-item decode loop shared by the query functions (the inner for
loop over page.Items): each item is passed to json.Unmarshal in order; the
unmarshal outcome of each raw item is the Except value supplied here.  On
the first decode error the Go code calls log.Fatal, which terminates the
whole process, so no later item is decoded or yielded; otherwise every
decoded record is yielded in order. -/
def decodeItems :
    List (Except String QueryResult) → Except String (List QueryResult)
  | [] => Except.ok []
  | item :: rest =>
    match item with
    | Except.error e => Except.error e
    | Except.ok r =>
      match decodeItems rest with
      | Except.error e => Except.error e
      | Except.ok rs => Except.ok (r :: rs)

/-- executePointRead (query program): the key passed to ReadItem, chained
from the three segments exactly as in the source. -/
def executePointReadKey (tenantId userId sessionId : String) : PartitionKey :=
  ((newPartitionKeyString tenantId).appendString userId).appendString sessionId

/-- The key construction the repository performs wherever it builds a key:
start from NewPartitionKeyString on the first segment and chain
AppendString over the remaining segments.  It is total: no arity bound and
no content of any segment is ever checked. -/
def buildKeyChain (s0 : String) (rest : List String) : PartitionKey :=
  rest.foldl PartitionKey.appendString (newPartitionKeyString s0)

/-- The builder as the specification words it (for comparison with
buildKeyChain): reject fewer than 1 or more than 3 segments and any empty
segment, and perform no other validation. -/
def specBuild (segs : List String) : Except String PartitionKey :=
  if segs.length < 1 ∨ 3 < segs.length then Except.error "arity"
  else if segs.any (fun s => s = "") then Except.error "empty segment"
  else Except.ok segs

/-- Modelled from the spec: the repository never renders a partition key as
text (serialization happens inside the store client), while the spec
states its prefix-consistency property over the string form of a key.
Following the path notation of the container definition (the paths are
written /tenantId, /userId, /sessionId), the string form writes each
segment after a slash, in hierarchy order. -/
def PartitionKey.toStr (pk : PartitionKey) : String :=
  pk.foldl (fun acc seg => acc ++ "/" ++ seg) ""

/-- One string properly extends another: the longer one is the shorter one
followed by a nonempty tail, which is exactly the shorter being a strict
textual front part of the longer. -/
def properTextPre (a b : String) : Prop :=
  ∃ r, r ≠ "" ∧ b = a ++ r

/-- The outcome of the two external calls made for one record of the load
loop: whether json.Marshal succeeded and whether UpsertItem succeeded. -/
structure RecordFate where
  encodeOk : Bool
  writeOk : Bool
  deriving Repr, DecidableEq

/-- The hierarchical partition key the loader builds for a record
(load/main.go line 241): the record field values tenantId, userId,
sessionId chained in that order. -/
def sessionKey (s : UserSession) : PartitionKey :=
  ((newPartitionKeyString s.tenantId).appendString s.userId).appendString s.sessionId

/-- The mutable state of the load loop: the two counters and the trace of
upsert calls issued to the store (key passed together with the record
whose JSON body is sent). -/
structure LoadState where
  successCount : Nat
  errorCount : Nat
  upserts : List (PartitionKey × UserSession)
  deriving Repr, DecidableEq

/-- One iteration of the load loop (load/main.go lines 228 to 257): a
marshal failure counts an error and continues; otherwise the key is built
from the record and the upsert is issued; a write failure counts an error
and continues; otherwise the success counter is incremented. -/
def loadStep (st : LoadState) (rec : UserSession × RecordFate) : LoadState :=
  if rec.2.encodeOk = false then
    { st with errorCount := st.errorCount + 1 }
  else
    let st2 := { st with upserts := st.upserts ++ [(sessionKey rec.1, rec.1)] }
    if rec.2.writeOk = false then
      { st2 with errorCount := st2.errorCount + 1 }
    else
      { st2 with successCount := st2.successCount + 1 }

/-- The load loop over the generated records, starting from zeroed
counters and an empty upsert trace. -/
def runLoad (st : LoadState) (records : List (UserSession × RecordFate)) : LoadState :=
  records.foldl loadStep st

/-- What loadSampleData reports when the loop is done: the printed counts,
the upsert trace, and the batch error it returns (an error exactly when
errorCount is positive, otherwise nil). -/
structure LoadOutcome where
  succeeded : Nat
  failed : Nat
  upserts : List (PartitionKey × UserSession)
  batchError : Option String
  deriving Repr, DecidableEq

/-- loadSampleData (load/main.go): run the loop over the records (each
paired with the outcome of its external marshal and upsert calls), then
return the summary, with the aggregate error message of the source. -/
def loadSampleData (records : List (UserSession × RecordFate)) : LoadOutcome :=
  let st := runLoad ⟨0, 0, []⟩ records
  { succeeded := st.successCount
  , failed := st.errorCount
  , upserts := st.upserts
  , batchError :=
      if st.errorCount > 0 then
        some ("completed with " ++ toString st.errorCount ++ " errors out of "
          ++ toString records.length ++ " total records")
      else none }

/-- A record is fully processed without failure when both external calls
succeed. -/
def recordOk (r : UserSession × RecordFate) : Bool :=
  r.2.encodeOk && r.2.writeOk

/-- One entry of the tenantTypes table (load/main.go). -/
structure TenantType where
  name : String
  userMin : Nat
  userMax : Nat
  sessions : Nat
  deriving Repr, DecidableEq

/-- The tenantTypes table (load/main.go lines 41 to 52). -/
def tenantTypes : List TenantType :=
  [ ⟨"Global-Corp", 2000, 10000, 100⟩
  , ⟨"Enterprise-Corp", 1000, 5000, 50⟩
  , ⟨"MidMarket-Inc", 100, 500, 20⟩
  , ⟨"TechStartup-Co", 50, 200, 30⟩
  , ⟨"LocalShops-SME", 10, 50, 5⟩ ]

/-- The activities vocabulary (load/main.go lines 55 to 71). -/
def activities : List String :=
  [ "login", "logout", "view_dashboard", "create_document", "edit_document"
  , "delete_document", "upload_file", "download_file", "send_message"
  , "view_report", "export_data", "change_settings", "invite_user"
  , "join_meeting", "schedule_event" ]

/-- generateUserSession (load/main.go): every call to the random source is
an explicit parameter: tenantIdx is the draw rand.Intn(5) over
tenantTypes, userDraw the draw rand.Intn(userMax - userMin + 1), actIdx
the draw rand.Intn(15) over activities, and daysAgo, hoursAgo, minutesAgo
the draws rand.Intn(30), rand.Intn(24), rand.Intn(60).  uuidHex stands for
the first eight hex characters of a fresh uuid, uuidFull for a fresh full
uuid string.  Time is minutes since an epoch; AddDate with minus daysAgo
days is modelled as subtracting daysAgo times 1440 minutes, and the hour
and minute durations as 60 and 1 minutes each. -/
def generateUserSession (now : Int)
    (tenantIdx userDraw actIdx daysAgo hoursAgo minutesAgo : Nat)
    (uuidHex uuidFull : String) : UserSession :=
  let tenant := tenantTypes.getD tenantIdx ⟨"", 0, 0, 0⟩
  let userNum := userDraw + tenant.userMin
  let userID := "user-" ++ toString userNum
  let sessionID := "session-" ++ uuidHex
  let activity := activities.getD actIdx ""
  let timestamp :=
    now - ((daysAgo : Int) * 1440 + (hoursAgo : Int) * 60 + (minutesAgo : Int))
  { id := uuidFull
  , tenantId := tenant.name
  , userId := userID
  , sessionId := sessionID
  , activity := activity
  , timestamp := timestamp }

/-- The error type of a store call: either an azcore ResponseError carrying
an HTTP status code, or any other error. -/
inductive StoreErr where
  | response (statusCode : Nat) (msg : String)
  | other (msg : String)
  deriving Repr, DecidableEq

/-- The conflict test of ensureDatabaseAndContainer: errors.As to a
ResponseError and StatusCode equal to 409. -/
def isConflict409 : StoreErr → Bool
  | StoreErr.response 409 _ => true
  | _ => false

/-- A usable container handle as returned at the end of the setup. -/
structure ContainerHandle where
  databaseName : String
  containerName : String
  deriving Repr, DecidableEq

/-- The outcomes of the four external store calls made by
ensureDatabaseAndContainer, in call order: CreateDatabase, NewDatabase,
CreateContainer, NewContainer. -/
structure StoreBehavior where
  createDatabase : Except StoreErr Unit
  newDatabase : Except StoreErr Unit
  createContainer : Except StoreErr Unit
  newContainer : Except StoreErr ContainerHandle

/-- The part of ensureDatabaseAndContainer after the database creation
step: NewDatabase propagates its error; a CreateContainer error is
returned unless it is the 409 conflict (container already exists, treated
as success); finally NewContainer yields the handle or its error. -/
def ensureAfterDatabase (st : StoreBehavior) : Except StoreErr ContainerHandle :=
  match st.newDatabase with
  | Except.error e => Except.error e
  | Except.ok _ =>
    match st.createContainer with
    | Except.error e =>
      if isConflict409 e then
        st.newContainer
      else
        Except.error e
    | Except.ok _ => st.newContainer

/-- ensureDatabaseAndContainer (load/main.go lines 142 to 217): a
CreateDatabase error is returned unless it is a ResponseError with status
409, which is treated as the database already existing and setup
continues; the same rule is applied to CreateContainer; the client
constructors NewDatabase and NewContainer propagate their errors.  (The Go
code wraps each propagated error message with fmt.Errorf; the embedding
keeps the underlying store error.) -/
def ensureDatabaseAndContainer (st : StoreBehavior) :
    Except StoreErr ContainerHandle :=
  match st.createDatabase with
  | Except.error e =>
    if isConflict409 e then
      ensureAfterDatabase st
    else
      Except.error e
  | Except.ok _ => ensureAfterDatabase st

/-- A creation call is accepted by the setup when it succeeded or failed
with the 409 conflict. -/
def creationAccepted : Except StoreErr Unit → Bool
  | Except.ok _ => true
  | Except.error e => isConflict409 e

/-- A concrete decoded record, with the full-key example values of the
query program. -/
def r1c : QueryResult :=
  { id := "a-1", tenantId := "MidMarket-Inc", userId := "user-192"
  , sessionId := "session-5af6ab47", activity := "login"
  , timestamp := "2025-09-12T10:00:00Z" }

/-- A second concrete decoded record. -/
def r2c : QueryResult :=
  { id := "a-2", tenantId := "MidMarket-Inc", userId := "user-192"
  , sessionId := "session-5af6ab47", activity := "logout"
  , timestamp := "2025-09-12T11:00:00Z" }

/-- A concrete UserSession, with the point-read example values of the
query program. -/
def sessDemo : UserSession :=
  { id := "c0ba6ff6-a622-4b30-bcd3-b92960336976"
  , tenantId := "SmallBiz-LLC", userId := "user-42"
  , sessionId := "session-0361ef4c", activity := "login", timestamp := 0 }

/-- The three-segment key of sessDemo written out as a plain list. -/
def demoKey : PartitionKey := ["SmallBiz-LLC", "user-42", "session-0361ef4c"]

/-! ## Helper lemmas -/

/-- Appending a segment appends a slash and the segment to the string
form. -/
theorem toStr_appendString (pk : PartitionKey) (s : String) :
    PartitionKey.toStr (PartitionKey.appendString pk s)
      = PartitionKey.toStr pk ++ ("/" ++ s) := by
  unfold PartitionKey.appendString PartitionKey.toStr
  rw [List.foldl_append]
  simp only [List.foldl_cons, List.foldl_nil]
  exact String.append_assoc _ _ _

/-- A string starting with a slash is not empty. -/
theorem slash_append_ne_empty (s : String) : "/" ++ s ≠ "" := by
  intro h
  have h2 := congrArg String.length h
  rw [String.length_append] at h2
  rw [show String.length "/" = 1 from rfl, show String.length "" = 0 from rfl] at h2
  omega

/-- Folding appendString over a list of segments appends the list. -/
theorem foldl_appendString (rest : List String) :
    ∀ pk : PartitionKey, rest.foldl PartitionKey.appendString pk = pk ++ rest := by
  induction rest with
  | nil => intro pk; simp
  | cons x xs ih =>
    intro pk
    rw [List.foldl_cons, ih]
    simp [PartitionKey.appendString]

/-- Every load-loop iteration adds exactly one to the sum of the two
counters. -/
theorem loadStep_counter_sum (st : LoadState) (rec : UserSession × RecordFate) :
    (loadStep st rec).successCount + (loadStep st rec).errorCount
      = st.successCount + st.errorCount + 1 := by
  rcases rec with ⟨s, e, w⟩
  cases e <;> cases w <;> simp [loadStep] <;> omega

/-- A load-loop iteration increments the success counter exactly when both
external calls succeed. -/
theorem loadStep_success (st : LoadState) (rec : UserSession × RecordFate) :
    (loadStep st rec).successCount
      = st.successCount + (if recordOk rec then 1 else 0) := by
  rcases rec with ⟨s, e, w⟩
  cases e <;> cases w <;> simp [loadStep, recordOk]

/-- A load-loop iteration increments the error counter exactly when one of
the external calls fails. -/
theorem loadStep_error (st : LoadState) (rec : UserSession × RecordFate) :
    (loadStep st rec).errorCount
      = st.errorCount + (if recordOk rec then 0 else 1) := by
  rcases rec with ⟨s, e, w⟩
  cases e <;> cases w <;> simp [loadStep, recordOk]

/-- Over the whole loop the counters add up to the number of records. -/
theorem runLoad_counter_sum (records : List (UserSession × RecordFate)) :
    ∀ st : LoadState,
      (runLoad st records).successCount + (runLoad st records).errorCount
        = st.successCount + st.errorCount + records.length := by
  induction records with
  | nil => intro st; simp [runLoad]
  | cons r rs ih =>
    intro st
    have hstep := loadStep_counter_sum st r
    have h2 := ih (loadStep st r)
    simp only [runLoad, List.foldl_cons] at *
    rw [h2, hstep]
    simp [List.length_cons]
    omega

/-- Over the whole loop the success counter counts the fully successful
records. -/
theorem runLoad_success_count (records : List (UserSession × RecordFate)) :
    ∀ st : LoadState,
      (runLoad st records).successCount
        = st.successCount + (records.filter recordOk).length := by
  induction records with
  | nil => intro st; simp [runLoad]
  | cons r rs ih =>
    intro st
    have hstep := loadStep_success st r
    have h2 := ih (loadStep st r)
    simp only [runLoad, List.foldl_cons] at *
    rw [h2, hstep]
    by_cases hr : recordOk r
    · simp [hr, List.filter_cons]
      omega
    · simp [hr, List.filter_cons]

/-- Over the whole loop the error counter counts the failing records. -/
theorem runLoad_error_count (records : List (UserSession × RecordFate)) :
    ∀ st : LoadState,
      (runLoad st records).errorCount
        = st.errorCount + (records.filter (fun r => !(recordOk r))).length := by
  induction records with
  | nil => intro st; simp [runLoad]
  | cons r rs ih =>
    intro st
    have hstep := loadStep_error st r
    have h2 := ih (loadStep st r)
    simp only [runLoad, List.foldl_cons] at *
    rw [h2, hstep]
    by_cases hr : recordOk r
    · simp [hr, List.filter_cons]
    · simp [hr, List.filter_cons]
      omega

/-- A load-loop iteration preserves the key-record agreement of the upsert
trace: any pair it adds carries the key built from its own record. -/
theorem loadStep_upserts_agree (st : LoadState) (rec : UserSession × RecordFate)
    (h : ∀ p ∈ st.upserts, p.1 = sessionKey p.2) :
    ∀ p ∈ (loadStep st rec).upserts, p.1 = sessionKey p.2 := by
  intro p hp
  rcases rec with ⟨s, e, w⟩
  cases e <;> cases w <;> simp [loadStep] at hp
  case false.false => exact h p hp
  case false.true => exact h p hp
  all_goals
    rcases hp with h1 | h2
    · exact h p h1
    · rcases h2 with rfl
      rfl

/-- The whole loop preserves the key-record agreement of the upsert
trace. -/
theorem runLoad_upserts_agree (records : List (UserSession × RecordFate)) :
    ∀ st : LoadState, (∀ p ∈ st.upserts, p.1 = sessionKey p.2) →
      ∀ p ∈ (runLoad st records).upserts, p.1 = sessionKey p.2 := by
  induction records with
  | nil => intro st h; exact h
  | cons r rs ih =>
    intro st h
    simp only [runLoad, List.foldl_cons] at *
    exact ih (loadStep st r) (loadStep_upserts_agree st r h)

/-! ## Claim theorems -/

/-- Claim C1, counterexample: at the concrete tenant and user of the
source, the store-side key scope of the tenant-and-user query is the empty
partition key, not the two-segment prefix of tenant and user, so the claim
that the query is confined to the two-segment key scope is false. -/
theorem C1_counterexample :
    (queryWithTenantAndUserID "LocalShops-SME" "user-42").keyScope = newPartitionKey
    ∧ (queryWithTenantAndUserID "LocalShops-SME" "user-42").keyScope
        ≠ (newPartitionKeyString "LocalShops-SME").appendString "user-42" := by
  refine ⟨rfl, ?_⟩
  intro hcontra
  simp [queryWithTenantAndUserID, newPartitionKey, newPartitionKeyString,
    PartitionKey.appendString] at hcontra

/-- Claim C1 as amended: the tenant-and-user pattern issues a filtered
query that carries the two known segments only as WHERE-clause parameters,
while the partition-key scope handed to the store is the empty key, so
store-side the query is an unscoped cross-partition query. -/
theorem C1_tenantUser_query_shape (tenantID userID : String) :
    (queryWithTenantAndUserID tenantID userID).keyScope = newPartitionKey
    ∧ (queryWithTenantAndUserID tenantID userID).queryText
        = "SELECT * FROM c WHERE c.tenantId = @tenantId AND c.userId = @userId"
    ∧ (queryWithTenantAndUserID tenantID userID).queryParameters
        = [("@tenantId", tenantID), ("@userId", userID)] :=
  ⟨rfl, rfl, rfl⟩

/-- Claim C2: a single-field query request is accepted exactly for the
three partition-key field names; any other field name is rejected with the
invalid-parameter error before any store query exists, and an allowed
field name yields the store query that is issued. -/
theorem C2_singleField_validation (paramType paramValue : String) :
    ((queryWithSinglePKParameter paramType paramValue).isOk = true
        ↔ paramType ∈ (["tenantId", "userId", "sessionId"] : List String))
    ∧ (paramType ∉ (["tenantId", "userId", "sessionId"] : List String) →
        queryWithSinglePKParameter paramType paramValue
          = Except.error ("Invalid parameter type: " ++ paramType))
    ∧ (paramType ∈ (["tenantId", "userId", "sessionId"] : List String) →
        queryWithSinglePKParameter paramType paramValue
          = Except.ok
              { keyScope := newPartitionKey
              , queryText := "SELECT * FROM c WHERE c." ++ paramType ++ " = @param"
              , queryParameters := [("@param", paramValue)] }) := by
  by_cases h1 : paramType = "tenantId"
  · subst h1; simp [queryWithSinglePKParameter, Except.isOk, Except.toBool]
  by_cases h2 : paramType = "userId"
  · subst h2; simp [queryWithSinglePKParameter, Except.isOk, Except.toBool]
  by_cases h3 : paramType = "sessionId"
  · subst h3; simp [queryWithSinglePKParameter, Except.isOk, Except.toBool]
  · simp [queryWithSinglePKParameter, h1, h2, h3, Except.isOk, Except.toBool]

/-- Claim C2, witness: the field name activity is rejected with the
invalid-parameter error. -/
theorem C2_singleField_validation_witness :
    queryWithSinglePKParameter "activity" "view_dashboard"
      = Except.error "Invalid parameter type: activity" :=
  (C2_singleField_validation "activity" "view_dashboard").2.1 (by decide)

/-- Claim C3, counterexample: with a good item, a bad item and a second
good item, the decode loop returns the decode error of the bad item and
does not yield the two good records, so the claim that the remaining
records are still decoded and yielded is false. -/
theorem C3_counterexample :
    decodeItems
        [Except.ok r1c, Except.error "unexpected end of JSON input", Except.ok r2c]
      = Except.error "unexpected end of JSON input"
    ∧ decodeItems
        [Except.ok r1c, Except.error "unexpected end of JSON input", Except.ok r2c]
      ≠ Except.ok [r1c, r2c] := by
  refine ⟨rfl, ?_⟩
  intro hcontra
  simp [decodeItems] at hcontra

/-- Claim C3 as amended: a decoding failure of any single record aborts
the whole result-sequence processing fatally at that record (log.Fatal in
the source): the run ends with that decoding error and no later record is
decoded or yielded. -/
theorem C3_decode_abort (pre post : List (Except String QueryResult)) (e : String)
    (h : ∀ x ∈ pre, ∃ r, x = Except.ok r) :
    decodeItems (pre ++ Except.error e :: post) = Except.error e := by
  induction pre with
  | nil => rfl
  | cons x xs ih =>
    obtain ⟨r, hr⟩ := h x (by simp)
    subst hr
    have hxs : decodeItems (xs ++ Except.error e :: post) = Except.error e :=
      ih (fun y hy => h y (by simp [hy]))
    simp [decodeItems, hxs]

/-- Claim C3 as amended, witness: one good item before the bad item and
one after; the run ends with the decode error. -/
theorem C3_decode_abort_witness :
    decodeItems ([Except.ok r1c] ++ Except.error "bad item" :: [Except.ok r2c])
      = Except.error "bad item" :=
  C3_decode_abort [Except.ok r1c] [Except.ok r2c] "bad item"
    (fun x hx => ⟨r1c, by simpa using hx⟩)

/-- Claim C4: for every record list and every pattern of per-record encode
or write failures, the load reports counters that cover all records with
no early abort, the success counter counts exactly the fully successful
records, the failure counter counts exactly the failing ones, and the
batch error is present exactly when the failure counter is positive. -/
theorem C4_loadSampleData_report (records : List (UserSession × RecordFate)) :
    (loadSampleData records).succeeded + (loadSampleData records).failed
        = records.length
    ∧ (loadSampleData records).succeeded = (records.filter recordOk).length
    ∧ (loadSampleData records).failed
        = (records.filter (fun r => !(recordOk r))).length
    ∧ ((loadSampleData records).batchError.isSome
        ↔ 0 < (loadSampleData records).failed) := by
  have hsum := runLoad_counter_sum records ⟨0, 0, []⟩
  have hsucc := runLoad_success_count records ⟨0, 0, []⟩
  have herr := runLoad_error_count records ⟨0, 0, []⟩
  refine ⟨?_, ?_, ?_, ?_⟩
  · simpa [loadSampleData] using hsum
  · simpa [loadSampleData] using hsucc
  · simpa [loadSampleData] using herr
  · simp only [loadSampleData]
    by_cases h : (runLoad ⟨0, 0, []⟩ records).errorCount > 0
    · simp [h]
    · simp [h]

/-- Claim C5: for keys built from the segment lists of tenant, of tenant
and user, and of tenant, user and session, the string form of each shorter
key is a strict textual front part of each longer one. -/
theorem C5_key_string_forms (tenant user session : String) :
    properTextPre (PartitionKey.toStr (newPartitionKeyString tenant))
        (PartitionKey.toStr ((newPartitionKeyString tenant).appendString user))
    ∧ properTextPre
        (PartitionKey.toStr ((newPartitionKeyString tenant).appendString user))
        (PartitionKey.toStr
          (((newPartitionKeyString tenant).appendString user).appendString session))
    ∧ properTextPre (PartitionKey.toStr (newPartitionKeyString tenant))
        (PartitionKey.toStr
          (((newPartitionKeyString tenant).appendString user).appendString session)) := by
  refine ⟨⟨"/" ++ user, slash_append_ne_empty user, toStr_appendString _ user⟩,
    ⟨"/" ++ session, slash_append_ne_empty session, toStr_appendString _ session⟩, ?_⟩
  refine ⟨("/" ++ user) ++ ("/" ++ session), ?_, ?_⟩
  · intro h
    have h2 := congrArg String.length h
    rw [String.length_append, String.length_append, String.length_append] at h2
    rw [show String.length "/" = 1 from rfl, show String.length "" = 0 from rfl] at h2
    omega
  · rw [toStr_appendString _ session, toStr_appendString _ user,
      String.append_assoc]

/-- Claim C6, counterexample: the key construction of the repository
accepts a list of three empty segments and yields them as a key, while the
builder as the specification words it rejects the same input for its empty
segments; so the claim that the construction rejects empty segments is
false. -/
theorem C6_counterexample :
    buildKeyChain "" ["", ""] = ["", "", ""]
    ∧ specBuild ["", "", ""] = Except.error "empty segment" := by
  constructor
  · rfl
  · rfl

/-- Claim C6 as amended: the key construction of the repository performs
no validation at all: for any first segment and any list of further
segments it returns exactly that segment list as the key, so empty
segments, any arity and any non-contiguous combination pass through
unchecked, and arity one to three holds only because each call site
supplies a fixed number of segments. -/
theorem C6_build_no_validation (s0 : String) (rest : List String) :
    buildKeyChain s0 rest = s0 :: rest := by
  unfold buildKeyChain
  rw [foldl_appendString]
  rfl

/-- Claim C7: with the day, hour and minute offsets drawn from their
ranges (below 30, 24 and 60) and summed against now, the generated
timestamp lies in the closed window of the last 30 days. -/
theorem C7_timestamp_window (now : Int)
    (tenantIdx userDraw actIdx daysAgo hoursAgo minutesAgo : Nat)
    (uuidHex uuidFull : String)
    (hd : daysAgo < 30) (hh : hoursAgo < 24) (hm : minutesAgo < 60) :
    now - 30 * 1440
        ≤ (generateUserSession now tenantIdx userDraw actIdx daysAgo hoursAgo
            minutesAgo uuidHex uuidFull).timestamp
    ∧ (generateUserSession now tenantIdx userDraw actIdx daysAgo hoursAgo
            minutesAgo uuidHex uuidFull).timestamp ≤ now := by
  simp only [generateUserSession]
  constructor <;> omega

/-- Claim C7, witness: at the extreme draws of 29 days, 23 hours and 59
minutes the timestamp still lies in the window. -/
theorem C7_timestamp_window_witness :
    (0 : Int) - 30 * 1440
        ≤ (generateUserSession 0 0 0 0 29 23 59 "5af6ab47" "f47ac10b").timestamp
    ∧ (generateUserSession 0 0 0 0 29 23 59 "5af6ab47" "f47ac10b").timestamp
        ≤ (0 : Int) :=
  C7_timestamp_window 0 0 0 0 29 23 59 "5af6ab47" "f47ac10b"
    (by omega) (by omega) (by omega)

/-- Claim C8: with the client constructors succeeding, the setup returns a
usable handle exactly when each creation call either succeeded or failed
with the 409 conflict (already exists, treated as success), and a creation
error other than the 409 conflict is returned as the failure of the
setup. -/
theorem C8_conflict_is_success (cd cc : Except StoreErr Unit)
    (nc : Except StoreErr ContainerHandle) (hnc : nc.isOk = true) :
    ((ensureDatabaseAndContainer ⟨cd, Except.ok (), cc, nc⟩).isOk = true
        ↔ (creationAccepted cd = true ∧ creationAccepted cc = true))
    ∧ (∀ e, cd = Except.error e → isConflict409 e = false →
          ensureDatabaseAndContainer ⟨cd, Except.ok (), cc, nc⟩ = Except.error e)
    ∧ (∀ e, cc = Except.error e → isConflict409 e = false →
          creationAccepted cd = true →
          ensureDatabaseAndContainer ⟨cd, Except.ok (), cc, nc⟩
            = Except.error e) := by
  cases cd with
  | ok u =>
    cases cc with
    | ok v =>
      simp [ensureDatabaseAndContainer, ensureAfterDatabase, creationAccepted, hnc]
    | error e =>
      by_cases hce : isConflict409 e
      · simp [ensureDatabaseAndContainer, ensureAfterDatabase, creationAccepted,
          hce, hnc]
      · simp [ensureDatabaseAndContainer, ensureAfterDatabase, creationAccepted,
          hce, Except.isOk, Except.toBool]
  | error d =>
    by_cases hcd : isConflict409 d
    · cases cc with
      | ok v =>
        simp [ensureDatabaseAndContainer, ensureAfterDatabase, creationAccepted,
          hcd, hnc]
      | error e =>
        by_cases hce : isConflict409 e
        · simp [ensureDatabaseAndContainer, ensureAfterDatabase, creationAccepted,
            hcd, hce, hnc]
        · simp [ensureDatabaseAndContainer, ensureAfterDatabase, creationAccepted,
            hcd, hce, Except.isOk, Except.toBool]
    · simp [ensureDatabaseAndContainer, ensureAfterDatabase, creationAccepted,
        hcd, Except.isOk, Except.toBool]

/-- Claim C8, witness: both creation calls answer with the 409 conflict
and the setup still returns a usable handle. -/
theorem C8_conflict_is_success_witness :
    (ensureDatabaseAndContainer
        ⟨Except.error (StoreErr.response 409 "Conflict"), Except.ok ()
        , Except.error (StoreErr.response 409 "Conflict")
        , Except.ok ⟨"sampleDB", "UserSessions"⟩⟩).isOk = true :=
  (C8_conflict_is_success (Except.error (StoreErr.response 409 "Conflict"))
      (Except.error (StoreErr.response 409 "Conflict"))
      (Except.ok ⟨"sampleDB", "UserSessions"⟩) rfl).1.mpr ⟨rfl, rfl⟩

/-- Claim C9: for every record list and every interleaving of per-record
successes and failures, the success counter plus the failure counter of
the finished load equals the number of records. -/
theorem C9_counters_cover_all (records : List (UserSession × RecordFate)) :
    (loadSampleData records).succeeded + (loadSampleData records).failed
      = records.length := by
  simpa [loadSampleData] using runLoad_counter_sum records ⟨0, 0, []⟩

/-- Claim C10: every upsert the loader issues carries the three-segment
key built from the tenantId, userId and sessionId of the very record being
written, in that order. -/
theorem C10_upsert_key_matches (records : List (UserSession × RecordFate))
    (pk : PartitionKey) (s : UserSession)
    (h : (pk, s) ∈ (loadSampleData records).upserts) :
    pk = sessionKey s := by
  have h2 : (pk, s) ∈ (runLoad ⟨0, 0, []⟩ records).upserts := h
  have h3 := runLoad_upserts_agree records ⟨0, 0, []⟩
    (fun p hp => absurd hp (List.not_mem_nil p)) (pk, s) h2
  exact h3

/-- Claim C10, witness: loading one concrete record issues an upsert whose
key is the plain list of that record field values in hierarchy order. -/
theorem C10_upsert_key_matches_witness : demoKey = sessionKey sessDemo :=
  C10_upsert_key_matches [(sessDemo, ⟨true, true⟩)] demoKey sessDemo (by decide)

end HierPartKeys
